import Mathlib

/-!
# Finmate-Backend: verification of the loan-funnel core

Shallow embedding of the session dialogue state machine and the numeric
decision rules of the Finmate backend (`api_server.py` and the agents it
drives), with theorems settling the frozen claims about them.

Modelling conventions:
* Python floats are modelled by exact rationals (`ℚ`); `int(x)` applied to a
  number is truncation toward zero; Python 3 `round` is round-half-to-even;
  `math.ceil` is the ceiling.
* Python dicts with a fixed key set become structures; keys that may be
  absent become `Option` fields; `d.get(k) or 0` becomes `(f).getD 0`.
* Strings are processed as `List Char`; the regular expressions of the
  source are hand-compiled to scanners with Python's leftmost-match
  semantics (`re.search`) and non-overlapping iteration (`re.finditer`).
* External collaborators (customer database, sentiment keywords, the
  generative-AI phrasing layer, sanction-letter rendering) are oracles in
  an `Env` record; the control flow reading their answers is transcribed
  from the source.
* Timestamps are integers (whole seconds); only order comparisons on them
  occur in the source.
-/

namespace Finmate

/-- Python `int(x)` applied to a number: truncation toward zero
(`-⌊-q⌋ = ⌈q⌉` on the negative side). -/
def ratTrunc (q : ℚ) : ℤ := if 0 ≤ q then ⌊q⌋ else -⌊-q⌋

/-- Python 3 `round(x)` (no digits argument): nearest integer, ties to even. -/
def pyRound (q : ℚ) : ℤ :=
  if q - (⌊q⌋ : ℚ) < 1/2 then ⌊q⌋
  else if (1 : ℚ)/2 < q - (⌊q⌋ : ℚ) then ⌊q⌋ + 1
  else if ⌊q⌋ % 2 = 0 then ⌊q⌋ else ⌊q⌋ + 1

/-- Python `math.ceil` on an exact rational. -/
def pyCeil (q : ℚ) : ℤ := -⌊-q⌋

/-! ## RiskEngine (`agents/risk_assessment_agent.py`, `RiskAssessmentAgent.assess`) -/

/-- `credit_component = max(0, min(70, int((credit_score - 600) * 0.35)))`
(risk_assessment_agent.py line 38), with the float arithmetic idealized as
exact real arithmetic.  This idealization is used for the shape/monotonicity
analysis only; it can differ by one from CPython (e.g. at credit score 780,
where the double product of 180 and `0.35` lands just below 63).  The
bit-faithful binary64 semantics is `credit_component_fp` below. -/
def credit_component (credit_score : ℤ) : ℤ :=
  max 0 (min 70 (ratTrunc (((credit_score : ℚ) - 600) * (35/100))))

/-- `utilization = requested_amount / float(pre_approved_limit)` when the limit
is positive, else the initial value `1.0` (lines 39-41), as an exact quotient;
the binary64 semantics is `utilization_fp` below. -/
def utilization (pre_approved_limit requested_amount : ℤ) : ℚ :=
  if 0 < pre_approved_limit then (requested_amount : ℚ) / (pre_approved_limit : ℚ)
  else 1

/-- `utilization_component = max(0, min(30, int((2.0 - utilization) * 15)))`
(line 42), with the float arithmetic idealized as exact real arithmetic (it
can differ by one from CPython, e.g. for a 500000 request against a 300000
limit); the bit-faithful binary64 semantics is `utilization_component_fp`
below. -/
def utilization_component (pre_approved_limit requested_amount : ℤ) : ℤ :=
  max 0 (min 30 (ratTrunc ((2 - utilization pre_approved_limit requested_amount) * 15)))

/-- `risk_score = max(0, min(100, credit_component + utilization_component))`
(line 43), over the idealized components; `risk_score_fp` is the binary64
version. -/
def risk_score (credit_score pre_approved_limit requested_amount : ℤ) : ℤ :=
  max 0 (min 100 (credit_component credit_score
    + utilization_component pre_approved_limit requested_amount))

/-- Round a rational to the nearest IEEE-754 binary64 value (round to
nearest, ties to even): the result is the nearest multiple of
`2 ^ (e - 52)` where `2 ^ e ≤ |q| < 2 ^ (e + 1)`, so it carries 53
significant bits.  The exponent is unbounded: overflow and subnormals do not
occur at the magnitudes this program computes with. -/
def fl (q : ℚ) : ℚ :=
  if q = 0 then 0
  else
    (pyRound (q * (2 : ℚ) ^ ((52 : ℤ) - Int.log 2 |q|)) : ℚ)
      / (2 : ℚ) ^ ((52 : ℤ) - Int.log 2 |q|)

/-- Bit-faithful binary64 version of line 38: in
`int((credit_score - 600) * 0.35)` the int-to-float conversion, the literal
`0.35` and the product are each correctly rounded doubles, then `int(...)`
truncates toward zero. -/
def credit_component_fp (credit_score : ℤ) : ℤ :=
  max 0 (min 70 (ratTrunc (fl (fl ((credit_score : ℚ) - 600) * fl (35/100)))))

/-- Bit-faithful binary64 version of lines 39-41:
`requested_amount / float(pre_approved_limit)` converts both integers to
doubles and divides with correct rounding; a non-positive limit leaves the
initial `1.0`. -/
def utilization_fp (pre_approved_limit requested_amount : ℤ) : ℚ :=
  if 0 < pre_approved_limit then
    fl (fl (requested_amount : ℚ) / fl (pre_approved_limit : ℚ))
  else 1

/-- Bit-faithful binary64 version of line 42: `(2.0 - utilization) * 15`
performs a correctly rounded subtraction and multiplication, then `int(...)`
truncates toward zero. -/
def utilization_component_fp (pre_approved_limit requested_amount : ℤ) : ℤ :=
  max 0 (min 30 (ratTrunc (fl
    (fl (2 - utilization_fp pre_approved_limit requested_amount) * 15))))

/-- Bit-faithful binary64 version of line 43 (the sum and clamps are
integer-exact). -/
def risk_score_fp (credit_score pre_approved_limit requested_amount : ℤ) : ℤ :=
  max 0 (min 100 (credit_component_fp credit_score
    + utilization_component_fp pre_approved_limit requested_amount))

/-- Status strings returned by `RiskAssessmentAgent.assess` /
`UnderwritingAgent.evaluate_loan`. -/
inductive Status
  | approved_instant
  | pending_salary_slip
  | rejected
  | error
deriving DecidableEq, Repr

/-- The decision dict built by `assess`: keys that only appear in some
branches are `Option`s.  `max_offer_cited` is the amount
`2 * pre_approved_limit` interpolated into the final rejection reason
string; `cited_score` is the credit score interpolated into the low-score
rejection reason. -/
structure AssessResult where
  status : Status
  approved_amount : Option ℤ
  max_offer_cited : Option ℤ
  cited_score : Option ℤ
  riskScore : Option ℤ
  creditScore : Option ℤ
  preApprovedLimit : Option ℤ
deriving DecidableEq, Repr

/-- The error dict (`{"status": "error", "message": ...}`). -/
def assessError : AssessResult :=
  { status := .error, approved_amount := none, max_offer_cited := none,
    cited_score := none, riskScore := none, creditScore := none,
    preApprovedLimit := none }

/-- `RiskAssessmentAgent.assess` after both lookups succeeded
(risk_assessment_agent.py lines 33-87).  The decision gates (score vs 700,
amount vs the limit and twice the limit) are integer-exact in the source;
only the reported `risk_score` value involves float arithmetic, idealized
here (see `risk_score_fp` for the binary64 semantics). -/
def assessCore (credit_score pre_approved_limit requested_amount : ℤ) : AssessResult :=
  let rs := risk_score credit_score pre_approved_limit requested_amount
  if credit_score < 700 then
    { status := .rejected, approved_amount := none, max_offer_cited := none,
      cited_score := some credit_score, riskScore := some rs,
      creditScore := some credit_score, preApprovedLimit := some pre_approved_limit }
  else if requested_amount ≤ pre_approved_limit then
    { status := .approved_instant, approved_amount := some requested_amount,
      max_offer_cited := none, cited_score := none, riskScore := some rs,
      creditScore := some credit_score, preApprovedLimit := some pre_approved_limit }
  else if 0 < pre_approved_limit ∧ requested_amount ≤ 2 * pre_approved_limit then
    { status := .pending_salary_slip, approved_amount := none, max_offer_cited := none,
      cited_score := none, riskScore := some rs,
      creditScore := some credit_score, preApprovedLimit := some pre_approved_limit }
  else
    { status := .rejected, approved_amount := none,
      max_offer_cited := some (2 * pre_approved_limit), cited_score := none,
      riskScore := some rs, creditScore := some credit_score,
      preApprovedLimit := some pre_approved_limit }

/-! ## EMI (`_compute_emi` in api_server.py lines 106-117; the identical
function also appears in agents/document_verification_agent.py lines 11-21) -/

/-- `_compute_emi(principal, annual_rate_percent, tenure_months)`. -/
def computeEmi (principal : ℤ) (annual_rate_percent : ℚ) (tenure_months : ℤ) : ℤ :=
  if principal ≤ 0 ∨ tenure_months ≤ 0 then 0
  else
    let monthly_rate := annual_rate_percent / 100 / 12
    if monthly_rate ≤ 0 then pyCeil ((principal : ℚ) / (tenure_months : ℚ))
    else
      let factor := (1 + monthly_rate) ^ tenure_months.toNat
      pyRound ((principal : ℚ) * monthly_rate * factor / (factor - 1))

/-- The spec's wording of the reducing-balance amortization formula, with
monthly rate written `r/1200`. -/
def emiSpecFormula (principal : ℤ) (annual_rate_percent : ℚ) (tenure_months : ℤ) : ℚ :=
  let m := annual_rate_percent / 1200
  (principal : ℚ) * m * (1 + m) ^ tenure_months.toNat
    / ((1 + m) ^ tenure_months.toNat - 1)

/-! ## String utilities

ASCII models of the Python primitives used by the extractors: `str.strip`,
`str.lower`, the character classes `\s`, `\d` and `\w` of `re`. -/

/-- Python `\s` (ASCII range). -/
def isWs (c : Char) : Bool :=
  c == ' ' || c == '\t' || c == '\n' || c == '\r' || c == '\x0b' || c == '\x0c'

/-- Python `\d` (ASCII range). -/
def isDigitCh (c : Char) : Bool := c.isDigit

/-- Python `\w` (ASCII range). -/
def isWordCh (c : Char) : Bool := c.isAlphanum || c == '_'

/-- Python `str.strip()` on a character list. -/
def stripList (cs : List Char) : List Char :=
  ((cs.dropWhile isWs).reverse.dropWhile isWs).reverse

/-- `text.strip().lower()`, the normalisation opening every extractor. -/
def lowerStrip (cs : List Char) : List Char := (stripList cs).map Char.toLower

/-- Python `str.strip()` on a string. -/
def pyStripStr (s : String) : String := String.mk (stripList s.toList)

/-- Decimal digits to a number. -/
def digitsToNat (cs : List Char) : ℕ := cs.foldl (fun a c => a * 10 + (c.toNat - 48)) 0

/-- Is `needle` a prefix of `hay`? -/
def pfx : List Char → List Char → Bool
  | [], _ => true
  | _ :: _, [] => false
  | a :: as, b :: bs => a == b && pfx as bs

/-- Is `needle` a contiguous substring of `hay` (Python `needle in hay`)? -/
def hasSub (needle : List Char) : List Char → Bool
  | [] => needle.isEmpty
  | c :: rest => pfx needle (c :: rest) || hasSub needle rest

/-- `needle in hay` for a literal needle. -/
def subStr (needle : String) (hay : List Char) : Bool := hasSub needle.toList hay

/-- Number of whitespace-separated words (`len(s.split())`). -/
def wordCount (cs : List Char) : ℕ :=
  (cs.foldl (fun (st : Bool × ℕ) c =>
    if isWs c then (false, st.2) else if st.1 then st else (true, st.2 + 1))
    (false, 0)).2

/-- A word boundary `\b` holds after a match when the rest is empty or starts
with a non-word character. -/
def boundaryAfter (cs : List Char) : Bool :=
  match cs with
  | [] => true
  | c :: _ => !isWordCh c

/-! ## Amount extraction (`_extract_amount`, `_extract_amount_candidates`,
api_server.py lines 120-185) -/

/-- The alternation `(lakh|lakhs|lac|lacs)`: Python tries the alternatives in
order and keeps the first that matches; the result is the input after the
matched alternative. -/
def lakhUnit (cs : List Char) : Option (List Char) :=
  if pfx "lakh".toList cs then some (cs.drop 4)
  else if pfx "lac".toList cs then some (cs.drop 3)
  else none

/-- The alternation `(crore|crores)`. -/
def croreUnit (cs : List Char) : Option (List Char) :=
  if pfx "crore".toList cs then some (cs.drop 5) else none

/-- Match `(\d+(?:\.\d+)?)\s*UNIT` anchored at the head of `cs`: greedy digit
runs, an optional greedy decimal part (dropped again on backtracking when the
unit does not follow), greedy whitespace, then the unit alternation.  Returns
the integer digits, the fractional digits and the rest after the match. -/
def matchNumUnitHere (unit : List Char → Option (List Char)) (cs : List Char) :
    Option (ℕ × List Char × List Char) :=
  let d1 := cs.takeWhile isDigitCh
  let r1 := cs.dropWhile isDigitCh
  if d1.isEmpty then none
  else
    let noDec : Option (ℕ × List Char × List Char) :=
      match unit (r1.dropWhile isWs) with
      | some rest => some (digitsToNat d1, [], rest)
      | none => none
    match r1 with
    | '.' :: r2 =>
      let d2 := r2.takeWhile isDigitCh
      let r3 := r2.dropWhile isDigitCh
      if d2.isEmpty then noDec
      else
        match unit (r3.dropWhile isWs) with
        | some rest => some (digitsToNat d1, d2, rest)
        | none => noDec
    | _ => noDec

/-- `re.search` for the number-unit pattern: leftmost match. -/
def searchNumUnit (unit : List Char → Option (List Char)) : List Char → Option (ℕ × List Char)
  | [] => none
  | c :: rest =>
    match matchNumUnitHere unit (c :: rest) with
    | some (a, f, _) => some (a, f)
    | none => searchNumUnit unit rest

/-- `re.finditer` for the number-unit pattern: non-overlapping matches left to
right.  The fuel starts at the list length; every match consumes at least one
character, so the fuel never runs out before the scan completes. -/
def finditNumUnitAux (unit : List Char → Option (List Char)) :
    ℕ → List Char → List (ℕ × List Char)
  | 0, _ => []
  | _, [] => []
  | fuel + 1, c :: rest =>
    match matchNumUnitHere unit (c :: rest) with
    | some (a, f, after) => (a, f) :: finditNumUnitAux unit fuel after
    | none => finditNumUnitAux unit fuel rest

/-- All number-unit matches of `re.finditer`. -/
def finditNumUnit (unit : List Char → Option (List Char)) (cs : List Char) :
    List (ℕ × List Char) :=
  finditNumUnitAux unit cs.length cs

/-- `int(float("<intPart>.<fracDigits>") * mult)` in exact arithmetic: the
product is nonnegative, so truncation is division flooring. -/
def scaledValue (mult intPart : ℕ) (fracDigits : List Char) : ℕ :=
  (intPart * 10 ^ fracDigits.length + digitsToNat fracDigits) * mult
    / 10 ^ fracDigits.length

def isDigitComma (c : Char) : Bool := isDigitCh c || c == ','

/-- Match `(\d[\d,]{2,})` anchored at the head: a digit followed by a greedy
run of at least two digits/commas.  Returns the group and the rest. -/
def matchDigitGroupHere (cs : List Char) : Option (List Char × List Char) :=
  match cs with
  | [] => none
  | c :: rest =>
    if isDigitCh c then
      let run := rest.takeWhile isDigitComma
      if 2 ≤ run.length then some (c :: run, rest.dropWhile isDigitComma) else none
    else none

/-- `re.search` for the raw digit-group pattern. -/
def searchDigitGroup : List Char → Option (List Char)
  | [] => none
  | c :: rest =>
    match matchDigitGroupHere (c :: rest) with
    | some (g, _) => some g
    | none => searchDigitGroup rest

/-- `re.finditer` for the digit-group pattern (fuel as above).  The optional
currency prefix `(?:₹|rs\.?\s*)?` of the candidates pattern never changes the
captured group, so it is not modelled. -/
def finditDigitGroupsAux : ℕ → List Char → List (List Char)
  | 0, _ => []
  | _, [] => []
  | fuel + 1, c :: rest =>
    match matchDigitGroupHere (c :: rest) with
    | some (g, after) => g :: finditDigitGroupsAux fuel after
    | none => finditDigitGroupsAux fuel rest

def finditDigitGroups (cs : List Char) : List (List Char) :=
  finditDigitGroupsAux cs.length cs

/-- `_extract_amount(text)` (api_server.py lines 120-147). -/
def extract_amount (text : List Char) : Option ℤ :=
  if text.isEmpty then none
  else
    let raw := lowerStrip text
    match searchNumUnit lakhUnit raw with
    | some (a, f) => some (scaledValue 100000 a f : ℕ)
    | none =>
      match searchNumUnit croreUnit raw with
      | some (a, f) => some (scaledValue 10000000 a f : ℕ)
      | none =>
        match searchDigitGroup raw with
        | some g => some (digitsToNat (g.filter isDigitCh) : ℕ)
        | none => none

/-- The heuristic excluding 10-digit mobile-looking groups
(api_server.py line 173). -/
def mobileLike (digits : List Char) : Bool :=
  digits.length == 10 &&
    (match digits with
     | c :: _ => c == '6' || c == '7' || c == '8' || c == '9'
     | [] => false)

/-- Order-preserving deduplication keeping positive values
(api_server.py lines 179-185). -/
def dedupPos (l : List ℕ) : List ℕ :=
  l.foldl (fun acc v => if 0 < v ∧ v ∉ acc then acc ++ [v] else acc) []

/-- `_extract_amount_candidates(text)` (api_server.py lines 150-185). -/
def extract_amount_candidates (text : List Char) : List ℕ :=
  if text.isEmpty then []
  else
    let raw := lowerStrip text
    let lakhs := (finditNumUnit lakhUnit raw).map fun p => scaledValue 100000 p.1 p.2
    let crores := (finditNumUnit croreUnit raw).map fun p => scaledValue 10000000 p.1 p.2
    let groups := (finditDigitGroups raw).filterMap fun g =>
      let ds := g.filter isDigitCh
      if mobileLike ds then none else some (digitsToNat ds)
    dedupPos (lakhs ++ crores ++ groups)

/-! ## Tenure extraction (`_extract_tenure_months`, api_server.py
lines 212-243) -/

/-- The alternation `(year|years|yr|yrs)`; a match only needs one alternative
to be a prefix of the rest (nothing follows it in the pattern). -/
def yearUnit (cs : List Char) : Bool := pfx "year".toList cs || pfx "yr".toList cs

/-- Match `(\d+)\s*(year|years|yr|yrs)` anchored at the head. -/
def matchYearHere (cs : List Char) : Option ℕ :=
  let d1 := cs.takeWhile isDigitCh
  let r1 := cs.dropWhile isDigitCh
  if d1.isEmpty then none
  else if yearUnit (r1.dropWhile isWs) then some (digitsToNat d1) else none

/-- `re.search` for the year pattern. -/
def searchYear : List Char → Option ℕ
  | [] => none
  | c :: rest =>
    match matchYearHere (c :: rest) with
    | some n => some n
    | none => searchYear rest

/-- The alternation `(month|months|mo|mos)` followed by `\b`. -/
def monthUnit (cs : List Char) : Bool :=
  (pfx "month".toList cs && boundaryAfter (cs.drop 5))
  || (pfx "months".toList cs && boundaryAfter (cs.drop 6))
  || (pfx "mo".toList cs && boundaryAfter (cs.drop 2))
  || (pfx "mos".toList cs && boundaryAfter (cs.drop 3))

/-- Match `(\d+)\s*(month|months|mo|mos)\b` anchored at the head (the leading
`\b` is checked by the caller). -/
def matchMonthHere (cs : List Char) : Option ℕ :=
  let d1 := cs.takeWhile isDigitCh
  let r1 := cs.dropWhile isDigitCh
  if d1.isEmpty then none
  else if monthUnit (r1.dropWhile isWs) then some (digitsToNat d1) else none

/-- `re.search` for `\b(\d+)\s*(month|months|mo|mos)\b`: the leading word
boundary holds at the string start or after a non-word character. -/
def searchMonthAux : Option Char → List Char → Option ℕ
  | _, [] => none
  | prev, c :: rest =>
    let ok := match prev with
      | none => true
      | some p => !isWordCh p
    match (if ok then matchMonthHere (c :: rest) else none) with
    | some n => some n
    | none => searchMonthAux (some c) rest

def searchMonth (cs : List Char) : Option ℕ := searchMonthAux none cs

/-- `_extract_tenure_months(text)` (api_server.py lines 212-243). -/
def extract_tenure_months (text : List Char) : Option ℤ :=
  if text.isEmpty then none
  else
    let raw := lowerStrip text
    match searchYear raw with
    | some n => some ((n : ℤ) * 12)
    | none =>
      match searchMonth raw with
      | some n => some (n : ℕ)
      | none =>
        let rawNoWs := raw.filter fun c => !isWs c
        if !rawNoWs.isEmpty && rawNoWs.all isDigitCh then some (digitsToNat rawNoWs)
        else none

/-! ## Yes/no tests and the phone pattern (api_server.py lines 255-265, 414) -/

/-- `_is_yes(text)` (lines 255-260): exact membership or the substring
`"yes"`. -/
def is_yes (text : List Char) : Bool :=
  let t := lowerStrip text
  (["yes", "y", "yeah", "yep", "ok", "okay", "sure", "proceed", "go ahead"].map
    String.toList).contains t || hasSub "yes".toList t

/-- `_is_no(text)` (lines 263-265): exact membership or the prefix `"no"`. -/
def is_no (text : List Char) : Bool :=
  let t := lowerStrip text
  (["no", "n", "nope", "nah", "don\x27t", "do not", "decline"].map
    String.toList).contains t || pfx "no".toList t

/-- Match `\d{10}\b` anchored at the head (the leading `\b` is checked by the
caller). -/
def tenDigitsHere (cs : List Char) : Option (List Char) :=
  let d := cs.take 10
  if d.length == 10 && d.all isDigitCh && boundaryAfter (cs.drop 10) then some d
  else none

/-- `re.search(r"\b\d{10}\b", msg)`. -/
def searchPhoneAux : Option Char → List Char → Option (List Char)
  | _, [] => none
  | prev, c :: rest =>
    let ok := match prev with
      | none => true
      | some p => !isWordCh p
    match (if ok then tenDigitsHere (c :: rest) else none) with
    | some d => some d
    | none => searchPhoneAux (some c) rest

def searchPhone (cs : List Char) : Option (List Char) := searchPhoneAux none cs

/-! ## Data model -/

/-- A customer record of `utils/database.py` (`get_customer_by_phone`).
`salary` is absent from the JSON fixture records, hence optional. -/
structure DbCustomer where
  customer_id : String
  name : String
  phone : String
  email : String
  address : String
  pre_approved_limit : ℤ
  credit_score : ℤ
  salary : Option ℤ
deriving DecidableEq, Repr

/-- The verification payload stored as `session["customer_details"]`
(`VerificationAgent.verify_customer`, verification_agent.py lines 37-45). -/
structure Customer where
  customer_id : String
  name : String
  phone : String
  email : String
  address : String
  pre_approved_limit : ℤ
deriving DecidableEq, Repr

/-- `session["loan_details"]`: a dict whose keys appear over time. -/
structure LoanDetails where
  requested_amount : Option ℤ
  tenure : Option ℤ
  final_amount : Option ℤ
deriving DecidableEq, Repr

/-- `session["pending"]`. -/
structure Pending where
  suggested_amount : Option ℤ
  requested_amount : Option ℤ
  awaiting_docs_for_amount : Option ℤ
deriving DecidableEq, Repr

/-- The per-conversation session dict of api_server.py (the `id` and
`last_seen` bookkeeping lives in the store model below). -/
structure Session where
  state : String
  customer_details : Option Customer
  loan_details : LoanDetails
  pending : Pending
deriving DecidableEq, Repr

def emptyLoan : LoanDetails :=
  { requested_amount := none, tenure := none, final_amount := none }

def emptyPending : Pending :=
  { suggested_amount := none, requested_amount := none, awaiting_docs_for_amount := none }

/-- The fresh session built by `_get_or_create_session`
(api_server.py lines 375-382). -/
def initialSession : Session :=
  { state := "AWAITING_PHONE", customer_details := none,
    loan_details := emptyLoan, pending := emptyPending }

/-- The extraction result of `GeminiConversationAgent.respond` as read by
api_server.py (lines 499-515, 678-692). -/
structure GeminiResp where
  message : String
  amount : Option ℤ
  tenure_months : Option ℤ
  confidence : ℚ

/-- External collaborators, modelled as oracles.  `db` is
`customer_db.get_customer_by_phone`; `creditReport` keeps the
`CreditBureauAgent` in its DB-fallback configuration (no mock API base URL,
cold cache), where the report is the customer's stored score.  The
generative-AI layer only produces display text except for the extraction
fields of `geminiRespond`; `genMessage` is keyed by the `context_type`
argument of `generate_contextual_message`. -/
structure Env where
  db : String → Option DbCustomer
  sentimentStates : String → List String
  geminiConfigured : Bool
  geminiRespond : String → GeminiResp
  genMessage : String → String
  geminiThreshold : ℚ
  letterSuccess : Bool

/-- Reply: the returned message plus the claim-relevant `meta` flags.  The
rendered text of collaborator-generated messages is abstracted to tags. -/
structure Reply where
  message : String
  reset : Bool
  ended : Bool
  action_download : Bool
deriving DecidableEq, Repr

def plain (m : String) : Reply :=
  { message := m, reset := false, ended := false, action_download := false }

/-- CPython would raise at this point (attribute/key access on `None`); the
path is unreachable from the states the server itself produces. -/
def pyExceptionReply : Reply := plain "PY_EXCEPTION"

/-! ## Worker agents -/

/-- `VerificationAgent.verify_customer` (verification_agent.py lines 17-48):
empty input or an unknown key yields the error dict, modelled as `none`. -/
def verify_customer (env : Env) (phone_number : String) : Option Customer :=
  if phone_number = "" then none
  else
    (env.db phone_number).map fun c =>
      { customer_id := c.customer_id, name := c.name, phone := c.phone,
        email := c.email, address := c.address,
        pre_approved_limit := c.pre_approved_limit }

/-- `CreditBureauAgent.get_credit_report` in its DB-fallback configuration
(credit_bureau_agent.py lines 27-68): strip the phone, fail on empty input or
a missing customer, otherwise report `int(customer.get("credit_score") or 0)`.
-/
def get_credit_report (env : Env) (phone_number : String) : Option ℤ :=
  let p := pyStripStr phone_number
  if p = "" then none
  else (env.db p).map fun c => c.credit_score

/-- `RiskAssessmentAgent.assess` (risk_assessment_agent.py lines 17-87). -/
def assess (env : Env) (phone_number : String) (requested_amount : ℤ) : AssessResult :=
  if phone_number = "" then assessError
  else if requested_amount ≤ 0 then assessError
  else
    match get_credit_report env phone_number with
    | none => assessError
    | some credit_score =>
      match env.db phone_number with
      | none => assessError
      | some customer => assessCore credit_score customer.pre_approved_limit requested_amount

/-- `UnderwritingAgent.evaluate_loan` (underwriting_agent.py lines 18-41):
pass the assessment through when its status is one of the three decision
statuses, otherwise the error dict. -/
def evaluate_loan (env : Env) (phone_number : String) (requested_amount : ℤ) : AssessResult :=
  let d := assess env phone_number requested_amount
  if d.status = .approved_instant ∨ d.status = .pending_salary_slip ∨ d.status = .rejected
  then d
  else assessError

/-- `SalesAgent.discuss_loan` result dict (sales_agent.py lines 16-62). -/
structure SalesResult where
  status : String
  suggested_amount : Option ℤ
  final_amount : Option ℤ
  final_tenure : Option ℤ
deriving DecidableEq, Repr

/-- `SalesAgent.discuss_loan` (sales_agent.py lines 16-62).  `desired_tenure`
is defaulted when falsy (`None` or `0`): 72 months above 500000, else 60. -/
def discuss_loan (env : Env) (phone_number : String) (requested_amount : ℤ)
    (desired_tenure : Option ℤ) : SalesResult :=
  match env.db phone_number with
  | none =>
    { status := "error", suggested_amount := none, final_amount := none,
      final_tenure := none }
  | some customer =>
    let dt : ℤ :=
      match desired_tenure with
      | none => if 500000 < requested_amount then 72 else 60
      | some t => if t = 0 then (if 500000 < requested_amount then 72 else 60) else t
    if requested_amount ≤ customer.pre_approved_limit then
      { status := "confirmed", suggested_amount := none,
        final_amount := some requested_amount, final_tenure := some dt }
    else
      { status := "suggestion", suggested_amount := some customer.pre_approved_limit,
        final_amount := none, final_tenure := some dt }

/-! ## The state machine (`_process_message`, api_server.py lines 386-967)

The session mutations and control flow are transcribed branch by branch.
Branches that `return` directly are `.inl (session, reply)`; branches that
only set `response_message` and fall through to the later state checks are
`.inr (session, response_message)`. -/

/-- `_reset_session` (api_server.py lines 268-273). -/
def reset_session (s : Session) : Session :=
  { s with
    state := "AWAITING_PHONE"
    customer_details := none
    loan_details := emptyLoan
    pending := emptyPending }

/-- `_show_emi_preview_and_confirm` (api_server.py lines 322-366): display
text only; the EMI figures it interpolates feed no control flow. -/
def show_emi_preview (env : Env) : String :=
  if env.geminiConfigured then env.genMessage "loan_preview_confirmation"
  else "EMI_PREVIEW"

/-- `_maybe_start_underwriting_after_tenure` (api_server.py lines 60-103).
`none` as second component means the Python function returned `None` and the
caller falls through to the `UNDERWRITING_RUNNING` block. -/
def maybeStartUnderwriting (env : Env) (s : Session) : Session × Option Reply :=
  match s.customer_details with
  | none =>
    ({ s with state := "AWAITING_PHONE" },
     some { message := "RESTART_NEED_PHONE", reset := true, ended := false, action_download := false })
  | some cust =>
    match s.loan_details.requested_amount with
    | none => (s, some pyExceptionReply)
    | some ra =>
      let sales := discuss_loan env cust.phone ra s.loan_details.tenure
      if sales.status = "suggestion" then
        ({ s with
           pending := { s.pending with
                        suggested_amount := some (sales.suggested_amount.getD 0)
                        requested_amount := some ra }
           state := "AWAITING_SUGGESTION_CONFIRM" },
         some (plain "SUGGESTION_CHOICE"))
      else if sales.status = "confirmed" then
        ({ s with
           loan_details := { s.loan_details with final_amount := sales.final_amount }
           state := "UNDERWRITING_RUNNING" },
         none)
      else
        ({ s with state := "CONVERSATION_END" },
         some { message := "SALES_ERROR", reset := false, ended := true, action_download := false })

/-- The `AWAITING_PHONE` branch (api_server.py lines 413-455). -/
def awaitingPhoneStep (env : Env) (s : Session) (msg : List Char) :
    Sum (Session × Reply) (Session × String) :=
  match searchPhone msg with
  | none => .inr (s, "ASK_PHONE")
  | some _ =>
    match verify_customer env (String.mk msg) with
    | some cust =>
      .inl ({ s with customer_details := some cust, state := "AWAITING_LOAN_AMOUNT" },
            plain (if env.geminiConfigured then env.genMessage "welcome_after_verification"
                   else "WELCOME_PREAPPROVED"))
    | none => .inr (s, "CUSTOMER_NOT_FOUND")

/-- The `AWAITING_LOAN_AMOUNT` branch (api_server.py lines 457-595). -/
def awaitingLoanAmountStep (env : Env) (s : Session) (msg : List Char) :
    Sum (Session × Reply) (Session × String) :=
  let rawLower := msg.map Char.toLower
  let isSmallTalk :=
    decide (wordCount msg ≤ 3) &&
      (["hey", "hello", "hi", "confused", "help", "don\x27t know", "not sure"].map
        String.toList).any fun k => hasSub k rawLower
  if isSmallTalk && env.geminiConfigured then
    .inl (s, plain (env.genMessage "responding_to_small_talk_need_amount"))
  else
    let cands := extract_amount_candidates msg
    if 2 ≤ cands.length ∧ (subStr " or " rawLower ∨ subStr "/" rawLower) then
      .inl (s, plain (if env.geminiConfigured then env.genMessage "choosing_between_two_amounts"
                      else "CHOOSE_BETWEEN_TWO"))
    else
      let base := extract_amount msg
      let gem := if base.isNone && env.geminiConfigured
        then some (env.geminiRespond (String.mk msg)) else none
      let amount : Option ℤ :=
        match gem with
        | some g =>
          if env.geminiThreshold ≤ g.confidence then g.amount else none
        | none => base
      let extractedTenure : Option ℤ :=
        match gem with
        | some g =>
          if env.geminiThreshold ≤ g.confidence then g.tenure_months else none
        | none => none
      let respGemini : String :=
        match gem with
        | some g =>
          if amount.isNone then
            (if pyStripStr g.message ≠ "" then pyStripStr g.message else "ASK_AMOUNT_EXAMPLE")
          else (if pyStripStr g.message ≠ "" then pyStripStr g.message else "")
        | none => ""
      let resp : String :=
        if amount.isNone ∧ (env.sentimentStates (String.mk msg)).contains "confused" then
          "CONFUSED_AMOUNT_HINT"
        else respGemini
      match amount with
      | some a =>
        let ld1 := { s.loan_details with requested_amount := some a }
        match extractedTenure with
        | some t =>
          .inl ({ s with
                  loan_details := { ld1 with tenure := some t }
                  state := "AWAITING_CONFIRMATION" },
                plain (show_emi_preview env))
        | none =>
          let m :=
            if resp ≠ "" then resp
            else if env.geminiConfigured then env.genMessage "asking_tenure_with_education"
            else "ASK_TENURE"
          .inr ({ s with loan_details := ld1, state := "AWAITING_TENURE" }, m)
      | none =>
        let m := if resp ≠ "" then resp else "ASK_AMOUNT"
        .inr (s, m)

/-- `isinstance(x, int) and x > 0` for an optional dict entry. -/
def isPosOpt : Option ℤ → Bool
  | some a => decide (0 < a)
  | none => false

/-- The `AWAITING_TENURE` branch (api_server.py lines 597-717). -/
def awaitingTenureStep (env : Env) (s : Session) (msg : List Char) :
    Sum (Session × Reply) (Session × String) :=
  let rawLower := msg.map Char.toLower
  let isCmp :=
    (["which", "better", "should i", "recommend", "suggest", "compare", "difference",
      "best"].map String.toList).any fun k => hasSub k rawLower
  if isCmp && env.geminiConfigured then
    .inl (s, plain (env.genMessage "comparing_tenure_options"))
  else if (extract_amount msg).isSome && (extract_tenure_months msg).isNone &&
      isPosOpt s.loan_details.requested_amount then
    .inl (s, plain (if env.geminiConfigured then env.genMessage "redirect_to_tenure"
                    else "REDIRECT_TO_TENURE"))
  else if (env.sentimentStates (String.mk msg)).contains "confused" then
    .inl (s, plain (if env.geminiConfigured then env.genMessage "explaining_tenure_concept"
                    else "EXPLAIN_TENURE"))
  else
    let base := extract_tenure_months msg
    let gem := if base.isNone && env.geminiConfigured
      then some (env.geminiRespond (String.mk msg)) else none
    let tenure : Option ℤ :=
      match gem with
      | some g =>
        if env.geminiThreshold ≤ g.confidence ∧ g.tenure_months.isSome
        then g.tenure_months else none
      | none => base
    let earlyMsg : Option String :=
      match gem with
      | some g =>
        if ¬ (env.geminiThreshold ≤ g.confidence ∧ g.tenure_months.isSome) then
          (if pyStripStr g.message ≠ "" then some (pyStripStr g.message) else none)
        else none
      | none => none
    match earlyMsg with
    | some m => .inl (s, plain m)
    | none =>
      match tenure with
      | none =>
        .inl (s, plain (if env.geminiConfigured then env.genMessage "asking_for_tenure"
                        else "ASK_TENURE_AGAIN"))
      | some t =>
        .inl ({ s with
                loan_details := { s.loan_details with tenure := some t }
                state := "AWAITING_CONFIRMATION" },
              plain (show_emi_preview env))

/-- The `AWAITING_CONFIRMATION` block (api_server.py lines 719-787). -/
def confirmationStep (env : Env) (s : Session) (msg : List Char) (resp : String) :
    Sum (Session × Reply) (Session × String) :=
  let lower := msg.map Char.toLower
  if is_yes msg ∨ subStr "proceed" lower ∨ subStr "confirm" lower then
    match maybeStartUnderwriting env s with
    | (s1, some r) => .inl (s1, r)
    | (s1, none) => .inr (s1, resp)
  else if is_no msg ∨ subStr "change" lower ∨ subStr "different" lower then
    .inl ({ s with state := "AWAITING_LOAN_AMOUNT" },
          plain (if env.geminiConfigured then env.genMessage "asking_what_to_change"
                 else "WHAT_TO_CHANGE"))
  else
    match extract_amount msg with
    | some a =>
      let ld1 := { s.loan_details with requested_amount := some a }
      match extract_tenure_months msg with
      | some t =>
        .inl ({ s with loan_details := { ld1 with tenure := some t } },
              plain (show_emi_preview env))
      | none =>
        .inl ({ s with
                loan_details := ld1
                state := "AWAITING_TENURE" },
              plain (if env.geminiConfigured then env.genMessage "asking_tenure_with_education"
                     else "ASK_TENURE_FOR_NEW_AMOUNT"))
    | none =>
      match extract_tenure_months msg with
      | some t =>
        .inl ({ s with loan_details := { s.loan_details with tenure := some t } },
              plain (show_emi_preview env))
      | none =>
        .inl (s, plain (if env.geminiConfigured then env.genMessage "clarifying_confirmation"
                        else "CONFIRM_OR_ADJUST"))

/-- The `AWAITING_SUGGESTION_CONFIRM` block (api_server.py lines 789-826).
The yes/no branches set `final_amount`, save the state
`UNDERWRITING_RUNNING` and fall through into the underwriting block. -/
def suggestionConfirmStep (env : Env) (s : Session) (msg : List Char) :
    Sum (Session × Reply) (Session × String) :=
  match s.customer_details with
  | none =>
    .inl ({ s with state := "AWAITING_PHONE" },
          { message := "RESTART_NEED_PHONE", reset := true, ended := false, action_download := false })
  | some _ =>
    let suggested := s.pending.suggested_amount.getD 0
    let requested := s.pending.requested_amount.getD 0
    if is_yes msg then
      .inr ({ s with
              loan_details := { s.loan_details with final_amount := some suggested }
              state := "UNDERWRITING_RUNNING" },
            if env.geminiConfigured then env.genMessage "processing"
            else "PROCESSING_SUGGESTED")
    else if is_no msg then
      .inr ({ s with
              loan_details := { s.loan_details with final_amount := some requested }
              state := "UNDERWRITING_RUNNING" },
            if env.geminiConfigured then env.genMessage "processing"
            else "PROCESSING_REQUESTED")
    else
      .inl (s, plain "NEED_YES_NO_CHOICE")

/-- The `UNDERWRITING_RUNNING` block (api_server.py lines 828-923).  The EMI
and sanction-letter payload it computes feed only the rendered text and the
`meta` payload, both abstracted; `record_application` is a fire-and-forget
audit call wrapped in `try/except`. -/
def underwritingStep (env : Env) (s : Session) (resp : String) : Session × Reply :=
  match s.customer_details with
  | none => (s, pyExceptionReply)
  | some cust =>
    let finalAmount := s.loan_details.final_amount.getD 0
    let r := evaluate_loan env cust.phone finalAmount
    if r.status = .approved_instant then
      let m := resp ++ (if env.geminiConfigured then env.genMessage "explaining_approval"
                        else "APPROVED_SUMMARY")
      ({ s with state := "CONVERSATION_END" },
       { message := (if env.letterSuccess then m else m ++ "LETTER_ISSUE")
         reset := false
         ended := false
         action_download := env.letterSuccess })
    else if r.status = .pending_salary_slip then
      ({ s with
         state := "AWAITING_SALARY_UPLOAD"
         pending := { s.pending with awaiting_docs_for_amount := some finalAmount } },
       plain "UPLOAD_SALARY_SLIP")
    else
      ({ s with state := "CONVERSATION_END" }, plain "REJECTION_REASON")

/-- The `AWAITING_SALARY_UPLOAD` block (api_server.py lines 925-960). -/
def salaryUploadStep (_env : Env) (s : Session) (msg : List Char) : Session × Reply :=
  if ¬ subStr "upload" (msg.map Char.toLower) then (s, plain "TYPE_UPLOADED")
  else
    match s.customer_details with
    | none => (s, pyExceptionReply)
    | some _ =>
      ({ s with state := "CONVERSATION_END" },
       { message := "DOC_VERIFIED_APPROVED", reset := false, ended := false, action_download := true })

def resetKeywordsCode : List (List Char) :=
  ["restart", "reset", "start over", "new", "new chat"].map String.toList

def helpKeywords : List (List Char) :=
  ["help", "what can you do", "menu"].map String.toList

/-- The known state names of the machine. -/
def knownStates : List String :=
  ["AWAITING_PHONE", "AWAITING_LOAN_AMOUNT", "AWAITING_TENURE",
   "AWAITING_CONFIRMATION", "AWAITING_SUGGESTION_CONFIRM", "UNDERWRITING_RUNNING",
   "AWAITING_SALARY_UPLOAD", "CONVERSATION_END"]

/-- `_process_message(session, user_message)` (api_server.py lines 386-967):
strip the message; global reset/help commands pre-empt everything; then the
`if/elif` chain on the state read at entry; then the sequence of further `if`
blocks, each re-reading the (possibly mutated) session state, which lets a
turn fall from `AWAITING_CONFIRMATION` or `AWAITING_SUGGESTION_CONFIRM`
straight into underwriting.  A state matching no block returns the
accumulated `response_message` (initially `""`), with `"ended": true` added
in `CONVERSATION_END`. -/
def processMessage (env : Env) (s : Session) (text : String) : Session × Reply :=
  let msg := stripList text.toList
  let lower := msg.map Char.toLower
  if resetKeywordsCode.contains lower then
    (reset_session s,
     { message := "RESET_OK", reset := true, ended := false, action_download := false })
  else if helpKeywords.contains lower then (s, plain "HELP_TEXT")
  else
    let afterChain1 : Sum (Session × Reply) (Session × String) :=
      if s.state = "AWAITING_PHONE" then awaitingPhoneStep env s msg
      else if s.state = "AWAITING_LOAN_AMOUNT" then awaitingLoanAmountStep env s msg
      else if s.state = "AWAITING_TENURE" then awaitingTenureStep env s msg
      else .inr (s, "")
    match afterChain1 with
    | .inl out => out
    | .inr (s1, resp1) =>
      let afterConfirm : Sum (Session × Reply) (Session × String) :=
        if s1.state = "AWAITING_CONFIRMATION" then confirmationStep env s1 msg resp1
        else .inr (s1, resp1)
      match afterConfirm with
      | .inl out => out
      | .inr (s2, resp2) =>
        let afterSuggest : Sum (Session × Reply) (Session × String) :=
          if s2.state = "AWAITING_SUGGESTION_CONFIRM" then suggestionConfirmStep env s2 msg
          else .inr (s2, resp2)
        match afterSuggest with
        | .inl out => out
        | .inr (s3, resp3) =>
          if s3.state = "UNDERWRITING_RUNNING" then underwritingStep env s3 resp3
          else if s3.state = "AWAITING_SALARY_UPLOAD" then salaryUploadStep env s3 msg
          else if s3.state = "CONVERSATION_END" then
            (s3, { message := (if resp3 = "" then "CONCLUDED" else resp3)
                   reset := false
                   ended := true
                   action_download := false })
          else (s3, plain resp3)

/-! ## Session stores -/

/-- Association-list update of the first entry with the key (Python dict
assignment for an existing key). -/
def aupdate {α : Type} (k : String) (v : α) : List (String × α) → List (String × α)
  | [] => []
  | (k2, v2) :: rest => if k2 = k then (k2, v) :: rest else (k2, v2) :: aupdate k v rest

/-- An entry of the api_server `_sessions` dict: the dialogue session plus
its `id` and `last_seen` bookkeeping. -/
structure ApiSessionRec where
  id : String
  sess : Session
  last_seen : ℤ
deriving DecidableEq, Repr

/-- `_get_or_create_session(session_id)` (api_server.py lines 369-383): an
existing entry is returned with `last_seen` refreshed — there is no expiry
check anywhere in api_server.py; a falsy or unknown id creates a fresh
`AWAITING_PHONE` session.  `freshId` stands for `uuid.uuid4().hex`. -/
def getOrCreateSession (store : List (String × ApiSessionRec)) (session_id : Option String)
    (now : ℤ) (freshId : String) : ApiSessionRec × List (String × ApiSessionRec) :=
  let create (sid : String) : ApiSessionRec × List (String × ApiSessionRec) :=
    let r1 : ApiSessionRec := { id := sid, sess := initialSession, last_seen := now }
    (r1, store ++ [(sid, r1)])
  match session_id with
  | some sid =>
    if sid = "" then create freshId
    else
      match store.lookup sid with
      | some r0 =>
        let r1 := { r0 with last_seen := now }
        (r1, aupdate sid r1 store)
      | none => create sid
  | none => create freshId

/-- `SessionContext` (central_context_agent.py lines 10-18); the free-form
`loan` dict is modelled as an integer-valued association list (only the
emptiness of a fresh context matters here); the `meta`/`events` fields carry
no claim-relevant content and are omitted. -/
structure SessionContext where
  session_id : String
  state : String
  customer : Option Customer
  loan : List (String × ℤ)
  last_seen : ℤ
deriving DecidableEq, Repr

/-- A freshly constructed `SessionContext(session_id=sid)`. -/
def freshContext (sid : String) (now : ℤ) : SessionContext :=
  { session_id := sid, state := "AWAITING_PHONE", customer := none, loan := [],
    last_seen := now }

/-- The constructor default `session_ttl_seconds: int = 60 * 60`
(central_context_agent.py line 28). -/
def defaultTTL : ℤ := 60 * 60

/-- `CentralContextAgent._cleanup_expired` (lines 65-69): drop every entry
idle strictly longer than the TTL. -/
def cleanup_expired (ttl now : ℤ) (store : List (String × SessionContext)) :
    List (String × SessionContext) :=
  store.filter fun e => !(decide (ttl < now - e.2.last_seen))

/-- `CentralContextAgent.get` (lines 32-38): cleanup, create the entry if
missing, refresh `last_seen`, return it. -/
def ccaGet (ttl : ℤ) (store : List (String × SessionContext)) (sid : String) (now : ℤ) :
    SessionContext × List (String × SessionContext) :=
  let st1 := cleanup_expired ttl now store
  match st1.lookup sid with
  | none =>
    let ctx := freshContext sid now
    (ctx, st1 ++ [(sid, ctx)])
  | some ctx =>
    let ctx1 := { ctx with last_seen := now }
    (ctx1, aupdate sid ctx1 st1)

/-! ## Concrete fixtures for witnesses and counterexamples -/

/-- A demo customer in the shape of the built-in fixture records of
utils/database.py, with the credit score 780 of the spec's rejection
scenario. -/
def dbRajesh : DbCustomer :=
  { customer_id := "demo_9876543210", name := "Rajesh Kumar", phone := "9876543210",
    email := "rajesh.kumar@email.com", address := "Mumbai",
    pre_approved_limit := 500000, credit_score := 780, salary := none }

/-- His verification payload. -/
def custRajesh : Customer :=
  { customer_id := "demo_9876543210", name := "Rajesh Kumar", phone := "9876543210",
    email := "rajesh.kumar@email.com", address := "Mumbai",
    pre_approved_limit := 500000 }

/-- A concrete environment: one known customer, no generative-AI layer, no
sentiment keywords detected, sanction letters succeed. -/
def envW : Env :=
  { db := fun p => if p = "9876543210" then some dbRajesh else none,
    sentimentStates := fun _ => [],
    geminiConfigured := false,
    geminiRespond := fun _ =>
      { message := "", amount := none, tenure_months := none, confidence := 0 },
    genMessage := fun _ => "",
    geminiThreshold := 7/10,
    letterSuccess := true }

/-- A session awaiting the EMI-preview confirmation. -/
def sessConfirmW : Session :=
  { state := "AWAITING_CONFIRMATION", customer_details := some custRajesh,
    loan_details := { requested_amount := some 800000, tenure := some 24,
                      final_amount := none },
    pending := emptyPending }

/-- A session awaiting the suggested-amount yes/no choice. -/
def sessSuggestW : Session :=
  { state := "AWAITING_SUGGESTION_CONFIRM", customer_details := some custRajesh,
    loan_details := { requested_amount := some 800000, tenure := some 24,
                      final_amount := none },
    pending := { suggested_amount := some 500000, requested_amount := some 800000,
                 awaiting_docs_for_amount := none } }

/-- A session whose stored state value is not any known state name. -/
def sessCorruptW : Session :=
  { state := "CORRUPTED_STATE", customer_details := some custRajesh,
    loan_details := emptyLoan, pending := emptyPending }

/-- The reset keywords named by claim C7 (a subset of the code's set, which
also contains "new chat"). -/
def resetKeywordsSpec : List (List Char) :=
  ["restart", "reset", "start over", "new"].map String.toList

/-- A stale `CentralContextAgent` context for the C5 witness. -/
def staleCtxW : SessionContext :=
  { session_id := "s1", state := "CONVERSATION_END", customer := some custRajesh,
    loan := [("requested_amount", 800000)], last_seen := 0 }

/-! ## Numeric helper lemmas -/

theorem pyCeil_eq_ceil (q : ℚ) : pyCeil q = ⌈q⌉ := by
  have h := Int.ceil_neg (a := -q)
  rw [neg_neg] at h
  simp [pyCeil, ← h]

theorem ratTrunc_of_nonneg {q : ℚ} (h : 0 ≤ q) : ratTrunc q = ⌊q⌋ := by
  simp [ratTrunc, h]

/-- Truncation toward zero is monotone. -/
theorem ratTrunc_mono {x y : ℚ} (h : x ≤ y) : ratTrunc x ≤ ratTrunc y := by
  unfold ratTrunc
  by_cases hx : 0 ≤ x
  · rw [if_pos hx, if_pos (le_trans hx h)]
    exact Int.floor_le_floor h
  · rw [if_neg hx]
    by_cases hy : 0 ≤ y
    · rw [if_pos hy]
      have h1 : -⌊-x⌋ ≤ 0 := by
        have : (0 : ℚ) ≤ -x := by linarith [lt_of_not_le hx]
        have := Int.le_floor.mpr (by exact_mod_cast this : ((0 : ℤ) : ℚ) ≤ -x)
        omega
      have h2 : (0 : ℤ) ≤ ⌊y⌋ := Int.le_floor.mpr (by exact_mod_cast hy)
      omega
    · rw [if_neg hy]
      have : ⌊-y⌋ ≤ ⌊-x⌋ := Int.floor_le_floor (by linarith)
      omega

/-- Characterize `Int.log 2` by bracketing between powers of two. -/
theorem intLog2_eq {q : ℚ} {e : ℤ} (hq : 0 < q) (h1 : (2 : ℚ) ^ e ≤ q)
    (h2 : q < (2 : ℚ) ^ (e + 1)) : Int.log 2 q = e := by
  have ha : e ≤ Int.log 2 q :=
    (Int.zpow_le_iff_le_log (by norm_num) hq).mp (by exact_mod_cast h1)
  have hb : Int.log 2 q < e + 1 :=
    (Int.lt_zpow_iff_log_lt (by norm_num) hq).mp (by exact_mod_cast h2)
  omega

/-- Evaluate `fl` once the binade of the argument is known. -/
theorem fl_eval {q v : ℚ} {e : ℤ} (hq : q ≠ 0) (hlog : Int.log 2 |q| = e)
    (hv : (pyRound (q * (2 : ℚ) ^ ((52 : ℤ) - e)) : ℚ) / (2 : ℚ) ^ ((52 : ℤ) - e) = v) :
    fl q = v := by
  unfold fl
  rw [if_neg hq, hlog, hv]

theorem pyRound_intCast (m : ℤ) : pyRound (m : ℚ) = m := by
  unfold pyRound
  rw [Int.floor_intCast, if_pos (by norm_num)]

theorem pyRound_eq_floor {q : ℚ} {m : ℤ} (hf : ⌊q⌋ = m) (h : q - (m : ℚ) < 1/2) :
    pyRound q = m := by
  unfold pyRound
  rw [hf, if_pos h]

theorem pyRound_eq_floor_add_one {q : ℚ} {m : ℤ} (hf : ⌊q⌋ = m)
    (h : (1 : ℚ)/2 < q - (m : ℚ)) : pyRound q = m + 1 := by
  unfold pyRound
  rw [hf, if_neg (by linarith), if_pos h]

theorem pyRound_tie_even {q : ℚ} {m : ℤ} (hf : ⌊q⌋ = m) (h : q - (m : ℚ) = 1/2)
    (he : m % 2 = 0) : pyRound q = m := by
  unfold pyRound
  rw [hf, h, if_neg (by norm_num), if_neg (by norm_num), if_pos he]

theorem pyRound_tie_odd {q : ℚ} {m : ℤ} (hf : ⌊q⌋ = m) (h : q - (m : ℚ) = 1/2)
    (he : ¬ m % 2 = 0) : pyRound q = m + 1 := by
  unfold pyRound
  rw [hf, h, if_neg (by norm_num), if_neg (by norm_num), if_neg he]

/-- `fl 180 = 180` (exactly representable). -/
theorem fl_int180 : fl (180 : ℚ) = 180 := by
  have h1 : Int.log 2 |(180 : ℚ)| = 7 := by
    rw [show |(180 : ℚ)| = 180 from abs_of_pos (by norm_num)]
    exact intLog2_eq (by norm_num) (by norm_num) (by norm_num)
  refine fl_eval (by norm_num) h1 ?_
  rw [show (180 : ℚ) * (2 : ℚ) ^ ((52 : ℤ) - 7) = ((6333186975989760 : ℤ) : ℚ) by norm_num,
    pyRound_intCast]
  norm_num

/-- `fl 5 = 5` (exactly representable). -/
theorem fl_int5 : fl (5 : ℚ) = 5 := by
  have h1 : Int.log 2 |(5 : ℚ)| = 2 := by
    rw [show |(5 : ℚ)| = 5 from abs_of_pos (by norm_num)]
    exact intLog2_eq (by norm_num) (by norm_num) (by norm_num)
  refine fl_eval (by norm_num) h1 ?_
  rw [show (5 : ℚ) * (2 : ℚ) ^ ((52 : ℤ) - 2) = ((5629499534213120 : ℤ) : ℚ) by norm_num,
    pyRound_intCast]
  norm_num

/-- `fl 500000 = 500000` (exactly representable). -/
theorem fl_int500000 : fl (500000 : ℚ) = 500000 := by
  have h1 : Int.log 2 |(500000 : ℚ)| = 18 := by
    rw [show |(500000 : ℚ)| = 500000 from abs_of_pos (by norm_num)]
    exact intLog2_eq (by norm_num) (by norm_num) (by norm_num)
  refine fl_eval (by norm_num) h1 ?_
  rw [show (500000 : ℚ) * (2 : ℚ) ^ ((52 : ℤ) - 18) = ((8589934592000000 : ℤ) : ℚ) by
      norm_num,
    pyRound_intCast]
  norm_num

/-- `fl 300000 = 300000` (exactly representable). -/
theorem fl_int300000 : fl (300000 : ℚ) = 300000 := by
  have h1 : Int.log 2 |(300000 : ℚ)| = 18 := by
    rw [show |(300000 : ℚ)| = 300000 from abs_of_pos (by norm_num)]
    exact intLog2_eq (by norm_num) (by norm_num) (by norm_num)
  refine fl_eval (by norm_num) h1 ?_
  rw [show (300000 : ℚ) * (2 : ℚ) ^ ((52 : ℤ) - 18) = ((5153960755200000 : ℤ) : ℚ) by
      norm_num,
    pyRound_intCast]
  norm_num

/-- The binary64 value of the literal `0.35`: the scaled significand
`0.35 · 2^54 = 6305039478318694.4` rounds down, so the double is
`6305039478318694 / 2^54`, slightly below 0.35. -/
theorem fl_const35 : fl (35/100) = 6305039478318694 / 18014398509481984 := by
  have h1 : Int.log 2 |(35/100 : ℚ)| = -2 := by
    rw [show |(35/100 : ℚ)| = 35/100 from abs_of_pos (by norm_num)]
    exact intLog2_eq (by norm_num) (by norm_num) (by norm_num)
  refine fl_eval (by norm_num) h1 ?_
  have hr : pyRound ((35/100 : ℚ) * (2 : ℚ) ^ ((52 : ℤ) - (-2))) = 6305039478318694 :=
    pyRound_eq_floor (by norm_num) (by norm_num)
  rw [hr]
  norm_num

/-- The double product `180 * float(0.35)`: the exact product
`62.99999999999999289…` scales to `8866461766385663.4375`, rounding down —
the result lies just below 63. -/
theorem fl_prod780 :
    fl ((180 : ℚ) * (6305039478318694 / 18014398509481984))
      = 8866461766385663 / 140737488355328 := by
  have h1 : Int.log 2 |(180 : ℚ) * (6305039478318694 / 18014398509481984)| = 5 := by
    rw [show |(180 : ℚ) * (6305039478318694 / 18014398509481984)|
        = (180 : ℚ) * (6305039478318694 / 18014398509481984) from abs_of_pos (by norm_num)]
    exact intLog2_eq (by norm_num) (by norm_num) (by norm_num)
  refine fl_eval (by norm_num) h1 ?_
  have hr : pyRound (((180 : ℚ) * (6305039478318694 / 18014398509481984))
      * (2 : ℚ) ^ ((52 : ℤ) - 5)) = 8866461766385663 :=
    pyRound_eq_floor (by norm_num) (by norm_num)
  rw [hr]
  norm_num

/-- The double product `5 * float(0.35)`: the scaled significand is the
exact tie `7881299347898367.5`, which rounds to the even mantissa
`7881299347898368`, i.e. the product is exactly 1.75. -/
theorem fl_prod605 :
    fl ((5 : ℚ) * (6305039478318694 / 18014398509481984))
      = 7881299347898368 / 4503599627370496 := by
  have h1 : Int.log 2 |(5 : ℚ) * (6305039478318694 / 18014398509481984)| = 0 := by
    rw [show |(5 : ℚ) * (6305039478318694 / 18014398509481984)|
        = (5 : ℚ) * (6305039478318694 / 18014398509481984) from abs_of_pos (by norm_num)]
    exact intLog2_eq (by norm_num) (by norm_num) (by norm_num)
  refine fl_eval (by norm_num) h1 ?_
  have hr : pyRound (((5 : ℚ) * (6305039478318694 / 18014398509481984))
      * (2 : ℚ) ^ ((52 : ℤ) - 0)) = 7881299347898367 + 1 :=
    pyRound_tie_odd (by norm_num) (by norm_num) (by norm_num)
  rw [hr]
  norm_num

/-- The double quotient `500000 / 300000.0 = float(5/3)`, rounded up. -/
theorem fl_quot53 : fl ((5 : ℚ) / 3) = 7505999378950827 / 4503599627370496 := by
  have h1 : Int.log 2 |(5 : ℚ) / 3| = 0 := by
    rw [show |(5 : ℚ) / 3| = (5 : ℚ) / 3 from abs_of_pos (by norm_num)]
    exact intLog2_eq (by norm_num) (by norm_num) (by norm_num)
  refine fl_eval (by norm_num) h1 ?_
  have hr : pyRound (((5 : ℚ) / 3) * (2 : ℚ) ^ ((52 : ℤ) - 0))
      = 7505999378950826 + 1 :=
    pyRound_eq_floor_add_one (by norm_num) (by norm_num)
  rw [hr]
  norm_num

/-- The subtraction `2.0 - float(5/3)` is exact (Sterbenz): the difference is
already a double. -/
theorem fl_sub53 :
    fl (1501199875790165 / 4503599627370496) = 1501199875790165 / 4503599627370496 := by
  have h1 : Int.log 2 |(1501199875790165 / 4503599627370496 : ℚ)| = -2 := by
    rw [show |(1501199875790165 / 4503599627370496 : ℚ)|
        = (1501199875790165 / 4503599627370496 : ℚ) from abs_of_pos (by norm_num)]
    exact intLog2_eq (by norm_num) (by norm_num) (by norm_num)
  refine fl_eval (by norm_num) h1 ?_
  rw [show (1501199875790165 / 4503599627370496 : ℚ) * (2 : ℚ) ^ ((52 : ℤ) - (-2))
      = ((6004799503160660 : ℤ) : ℚ) by norm_num,
    pyRound_intCast]
  norm_num

/-- The double product `(2.0 - float(5/3)) * 15`: the exact product
`4.99999999999999889…` scales to `5629499534213118.75`, rounding up to a
double still strictly below 5. -/
theorem fl_mul15 :
    fl ((1501199875790165 / 4503599627370496 : ℚ) * 15)
      = 5629499534213119 / 1125899906842624 := by
  have h1 : Int.log 2 |(1501199875790165 / 4503599627370496 : ℚ) * 15| = 2 := by
    rw [show |(1501199875790165 / 4503599627370496 : ℚ) * 15|
        = (1501199875790165 / 4503599627370496 : ℚ) * 15 from abs_of_pos (by norm_num)]
    exact intLog2_eq (by norm_num) (by norm_num) (by norm_num)
  refine fl_eval (by norm_num) h1 ?_
  have hr : pyRound (((1501199875790165 / 4503599627370496 : ℚ) * 15)
      * (2 : ℚ) ^ ((52 : ℤ) - 2)) = 5629499534213118 + 1 :=
    pyRound_eq_floor_add_one (by norm_num) (by norm_num)
  rw [hr]
  norm_num

/-! ## Evaluation sanity checks for the embedding -/

example : credit_component 605 = 1 := by norm_num [credit_component, ratTrunc]
example : utilization_component 500000 1200000 = 0 := by
  norm_num [utilization_component, utilization, ratTrunc]
example : (assessCore 780 500000 1200000).status = .rejected := by decide
example : (assessCore 780 500000 1200000).max_offer_cited = some 1000000 := by decide
example : pyRound (7/4) = 2 := by norm_num [pyRound]
example : pyRound (5/2) = 2 := by norm_num [pyRound]
example : pyRound (7/2) = 4 := by norm_num [pyRound]
example : ratTrunc (-5/2) = -2 := by norm_num [ratTrunc]
example : stripList "  ab c  ".toList = "ab c".toList := by decide
example : wordCount "hey there you all".toList = 4 := by decide
example : hasSub "yes".toList "ohyesno".toList = true := by decide
example : hasSub "yes".toList "yeast".toList = false := by decide
example : extract_amount "2.5 lakh".toList = some 250000 := by decide
example : extract_amount "I want 1 crore".toList = some 10000000 := by decide
example : extract_amount "5,00,000 please".toList = some 500000 := by decide
example : extract_amount "maybe".toList = none := by decide
example : extract_amount_candidates "2 lakh or 300000".toList = [200000, 300000] := by decide
example : extract_amount_candidates "call 9876543210".toList = [] := by decide
example : extract_tenure_months "2 years".toList = some 24 := by decide
example : extract_tenure_months "18 months".toList = some 18 := by decide
example : extract_tenure_months " 2 4 ".toList = some 24 := by decide
example : extract_tenure_months "give me 36".toList = none := by decide
example : extract_tenure_months "5 lakh".toList = none := by decide
example : extract_tenure_months "6 mosquito nets".toList = none := by decide
example : extract_tenure_months "6 mos".toList = some 6 := by decide
example : is_yes "no, yes later".toList = true := by decide
example : is_no "no, yes later".toList = true := by decide
example : is_yes "maybe".toList = false := by decide
example : is_no "maybe".toList = false := by decide
example : searchPhone "my number is 9876543210 ok".toList = some "9876543210".toList := by
  decide
example : searchPhone "12345678901".toList = none := by decide

/-! ## Claims -/

/-- C1: for every phone whose customer record and credit report resolve and
every positive integer requested amount, the RiskEngine decision is:
rejected (citing the score) when `credit_score < 700`; otherwise instantly
approved with `approved_amount = requested_amount` when
`requested_amount ≤ pre_approved_limit`; otherwise pending document
verification when `pre_approved_limit > 0` and
`requested_amount ≤ 2 * pre_approved_limit`; otherwise rejected citing
`2 * pre_approved_limit` as the maximum offerable amount. -/
theorem assess_decision_characterization (env : Env) (phone : String) (c : DbCustomer)
    (requested_amount : ℤ) (hphone : phone ≠ "") (hstrip : pyStripStr phone = phone)
    (hdb : env.db phone = some c) (hpos : 0 < requested_amount) :
    (c.credit_score < 700 →
      (assess env phone requested_amount).status = .rejected ∧
      (assess env phone requested_amount).cited_score = some c.credit_score) ∧
    (700 ≤ c.credit_score → requested_amount ≤ c.pre_approved_limit →
      (assess env phone requested_amount).status = .approved_instant ∧
      (assess env phone requested_amount).approved_amount = some requested_amount) ∧
    (700 ≤ c.credit_score → c.pre_approved_limit < requested_amount →
      0 < c.pre_approved_limit → requested_amount ≤ 2 * c.pre_approved_limit →
      (assess env phone requested_amount).status = .pending_salary_slip) ∧
    (700 ≤ c.credit_score → c.pre_approved_limit < requested_amount →
      ¬(0 < c.pre_approved_limit ∧ requested_amount ≤ 2 * c.pre_approved_limit) →
      (assess env phone requested_amount).status = .rejected ∧
      (assess env phone requested_amount).max_offer_cited
        = some (2 * c.pre_approved_limit)) := by
  have hassess : assess env phone requested_amount
      = assessCore c.credit_score c.pre_approved_limit requested_amount := by
    unfold assess get_credit_report
    rw [if_neg hphone, if_neg (not_le.mpr hpos), hstrip, if_neg hphone, hdb]
    simp
  rw [hassess]
  refine ⟨?_, ?_, ?_, ?_⟩
  · intro h1
    simp [assessCore, h1]
  · intro h1 h2
    simp [assessCore, not_lt.mpr h1, h2]
  · intro h1 h2 h3 h4
    simp [assessCore, not_lt.mpr h1, not_le.mpr h2, h3, h4]
  · intro h1 h2 h3
    simp [assessCore, not_lt.mpr h1, not_le.mpr h2, h3]

/-- Witness for C1 at the spec's scenario: credit 780, limit 500000,
request 1200000 → rejected, maximum offer cited 1000000. -/
theorem assess_decision_characterization_witness :
    (assess envW "9876543210" 1200000).status = .rejected ∧
    (assess envW "9876543210" 1200000).max_offer_cited = some 1000000 := by
  have h := assess_decision_characterization envW "9876543210" dbRajesh 1200000
    (by decide) (by decide) (by decide) (by decide)
  have h4 := h.2.2.2 (by decide) (by decide) (by decide)
  refine ⟨h4.1, ?_⟩
  rw [h4.2]
  decide

/-- C2 counterexample: the claim says `credit_component` rounds
`(credit_score − 600) × 0.35` to the nearest integer; at credit score 605 the
product is 1.75, whose rounding is 2, but the code (`int(...)`) yields 1, and
the resulting risk score is 16 where the rounded formula gives 17. -/
theorem risk_components_round_counterexample :
    credit_component 605 = 1 ∧
    max 0 (min 70 (round ((((605 : ℤ) : ℚ) - 600) * (35/100)))) = 2 ∧
    risk_score 605 1000000 1000000 = 16 ∧
    max 0 (min 100
      (max 0 (min 70 (round ((((605 : ℤ) : ℚ) - 600) * (35/100))))
        + max 0 (min 30 (round ((2 - utilization 1000000 1000000) * 15))))) = 17 := by
  refine ⟨?_, ?_, ?_, ?_⟩
  · norm_num [credit_component, ratTrunc]
  · norm_num [round_eq]
  · norm_num [risk_score, credit_component, utilization_component, utilization, ratTrunc]
  · norm_num [round_eq, utilization]

/-- C2 amended: the RiskEngine evaluates the component formulas in IEEE-754
double arithmetic and truncates the results toward zero with Python
`int(...)`: `credit_component = clamp(0, 70, trunc(fl(fl(credit_score − 600)
· fl(0.35))))`, `utilization = fl(fl(requested_amount) /
fl(pre_approved_limit))` (the initial 1.0 when the limit is not positive),
`utilization_component = clamp(0, 30, trunc(fl(fl(2.0 − utilization) · 15)))`
and `risk_score = clamp(0, 100, credit_component + utilization_component)`,
where `fl` is round-to-nearest-even binary64 rounding.  The components are
truncated, not rounded — at credit score 605 the double product is exactly
1.75, truncated to 1 where rounding would give 2 — and the double rounding
shows through at fixture-level inputs: the credit component at score 780 is
62 (exact real arithmetic would give 63), and for a 500000 request against a
300000 limit the utilization component is 4 (exact arithmetic would give 5).
-/
theorem risk_score_float_formula :
    (∀ cs L ra : ℤ,
      credit_component_fp cs
        = max 0 (min 70 (ratTrunc (fl (fl ((cs : ℚ) - 600) * fl (35/100))))) ∧
      utilization_fp L ra
        = (if 0 < L then fl (fl (ra : ℚ) / fl (L : ℚ)) else 1) ∧
      utilization_component_fp L ra
        = max 0 (min 30 (ratTrunc (fl (fl (2 - utilization_fp L ra) * 15)))) ∧
      risk_score_fp cs L ra
        = max 0 (min 100 (credit_component_fp cs + utilization_component_fp L ra))) ∧
    credit_component_fp 780 = 62 ∧
    credit_component_fp 605 = 1 ∧
    pyRound (fl (fl (((605 : ℤ) : ℚ) - 600) * fl (35/100))) = 2 ∧
    utilization_component_fp 300000 500000 = 4 := by
  refine ⟨fun cs L ra => ⟨rfl, rfl, rfl, rfl⟩, ?_, ?_, ?_, ?_⟩
  · unfold credit_component_fp
    rw [show (((780 : ℤ) : ℚ) - 600) = (180 : ℚ) by norm_num, fl_int180, fl_const35,
      fl_prod780]
    have ht : ratTrunc ((8866461766385663 : ℚ) / 140737488355328) = 62 := by
      rw [ratTrunc_of_nonneg (by norm_num)]
      norm_num
    rw [ht]
    decide
  · unfold credit_component_fp
    rw [show (((605 : ℤ) : ℚ) - 600) = (5 : ℚ) by norm_num, fl_int5, fl_const35,
      fl_prod605]
    have ht : ratTrunc ((7881299347898368 : ℚ) / 4503599627370496) = 1 := by
      rw [ratTrunc_of_nonneg (by norm_num)]
      norm_num
    rw [ht]
    decide
  · rw [show (((605 : ℤ) : ℚ) - 600) = (5 : ℚ) by norm_num, fl_int5, fl_const35,
      fl_prod605]
    have hr : pyRound ((7881299347898368 : ℚ) / 4503599627370496) = 1 + 1 :=
      pyRound_eq_floor_add_one (by norm_num) (by norm_num)
    rw [hr]
    decide
  · unfold utilization_component_fp utilization_fp
    rw [if_pos (by norm_num)]
    rw [show (((500000 : ℤ) : ℚ)) = (500000 : ℚ) by norm_num,
      show (((300000 : ℤ) : ℚ)) = (300000 : ℚ) by norm_num,
      fl_int500000, fl_int300000,
      show (500000 : ℚ) / 300000 = (5 : ℚ) / 3 by norm_num,
      fl_quot53,
      show (2 : ℚ) - 7505999378950827 / 4503599627370496
        = 1501199875790165 / 4503599627370496 by norm_num,
      fl_sub53, fl_mul15]
    have ht : ratTrunc ((5629499534213119 : ℚ) / 1125899906842624) = 4 := by
      rw [ratTrunc_of_nonneg (by norm_num)]
      norm_num
    rw [ht]
    decide

/-- C10: with the credit score and a positive limit fixed, the risk score is
non-increasing in the requested amount; with the limit and requested amount
fixed, it is non-decreasing in the credit score. -/
theorem risk_score_monotonicity :
    (∀ cs L ra ra' : ℤ, 0 < L → ra ≤ ra' →
      risk_score cs L ra' ≤ risk_score cs L ra) ∧
    (∀ cs cs' L ra : ℤ, cs ≤ cs' →
      risk_score cs L ra ≤ risk_score cs' L ra) := by
  constructor
  · intro cs L ra ra' hL hra
    have hLq : (0 : ℚ) < (L : ℚ) := by exact_mod_cast hL
    have h1 : utilization L ra ≤ utilization L ra' := by
      unfold utilization
      rw [if_pos hL, if_pos hL]
      exact (div_le_div_iff_of_pos_right hLq).mpr (by exact_mod_cast hra)
    have h2 : (2 - utilization L ra') * 15 ≤ (2 - utilization L ra) * 15 :=
      mul_le_mul_of_nonneg_right (sub_le_sub_left h1 2) (by norm_num)
    have h3 : utilization_component L ra' ≤ utilization_component L ra :=
      max_le_max (le_refl 0) (min_le_min (le_refl 30) (ratTrunc_mono h2))
    exact max_le_max (le_refl 0)
      (min_le_min (le_refl 100) (add_le_add_left h3 _))
  · intro cs cs' L ra h
    have h1 : ((cs : ℚ) - 600) * (35/100) ≤ ((cs' : ℚ) - 600) * (35/100) :=
      mul_le_mul_of_nonneg_right
        (sub_le_sub_right (by exact_mod_cast h) 600) (by norm_num)
    have h2 : credit_component cs ≤ credit_component cs' :=
      max_le_max (le_refl 0) (min_le_min (le_refl 70) (ratTrunc_mono h1))
    exact max_le_max (le_refl 0)
      (min_le_min (le_refl 100) (add_le_add_right h2 _))

/-- Witness for C10: limit 500000, request raised from 400000 to 800000 does
not raise the risk score; credit score raised from 650 to 750 does not lower
it. -/
theorem risk_score_monotonicity_witness :
    risk_score 750 500000 800000 ≤ risk_score 750 500000 400000 ∧
    risk_score 650 500000 400000 ≤ risk_score 750 500000 400000 :=
  ⟨risk_score_monotonicity.1 750 500000 400000 800000 (by decide) (by decide),
   risk_score_monotonicity.2 650 750 500000 400000 (by decide)⟩

/-- The two branches of `_compute_emi` on positive inputs, phrased with the
spec's `m = r/1200`. -/
theorem computeEmi_branches (P : ℤ) (r : ℚ) (n : ℤ) (hP : 0 < P) (hn : 0 < n) :
    (r ≤ 0 → computeEmi P r n = ⌈(P : ℚ) / (n : ℚ)⌉) ∧
    (0 < r → computeEmi P r n = pyRound (emiSpecFormula P r n)) := by
  have hcond : ¬ (P ≤ 0 ∨ n ≤ 0) := by
    push_neg
    exact ⟨hP, hn⟩
  constructor
  · intro hr
    have hm : r / 100 / 12 ≤ 0 := by
      apply div_nonpos_of_nonpos_of_nonneg _ (by norm_num)
      exact div_nonpos_of_nonpos_of_nonneg hr (by norm_num)
    simp only [computeEmi]
    rw [if_neg hcond, if_pos hm, pyCeil_eq_ceil]
  · intro hr
    have hm : ¬ (r / 100 / 12 ≤ 0) := by
      push_neg
      positivity
    have heq : r / 100 / 12 = r / 1200 := by
      rw [div_div]
      norm_num
    simp only [computeEmi, emiSpecFormula]
    rw [if_neg hcond, if_neg hm, heq]

/-- C3: for positive principal, rate and tenure, `_compute_emi` returns
`ceil(P/n)` when the monthly rate is not positive, and otherwise the rounded
(not truncated) value of the reducing-balance amortization formula
`P·m·(1+m)^n / ((1+m)^n − 1)` with `m = r/1200`; at principal 500000, rate
10.99 and tenure 60 it returns the reference value 10869 (the exact quotient
is 10868.718…). -/
theorem compute_emi_characterization :
    (∀ (P : ℤ) (r : ℚ) (n : ℤ), 0 < P → 0 < n →
      (r ≤ 0 → computeEmi P r n = ⌈(P : ℚ) / (n : ℚ)⌉) ∧
      (0 < r → computeEmi P r n = pyRound (emiSpecFormula P r n))) ∧
    computeEmi 500000 (1099/100) 60 = 10869 := by
  refine ⟨fun P r n hP hn => computeEmi_branches P r n hP hn, ?_⟩
  have h2 := (computeEmi_branches 500000 (1099/100) 60 (by norm_num) (by norm_num)).2
    (by norm_num)
  rw [h2]
  have hspec : emiSpecFormula 500000 (1099/100) 60
      = (27475 : ℚ)/6 * (121099/120000)^(60:ℕ) / ((121099/120000)^(60:ℕ) - 1) := by
    simp only [emiSpecFormula, Int.reduceToNat]
    norm_num
  rw [hspec]
  unfold pyRound
  have hfl : ⌊((27475 : ℚ)/6 * (121099/120000)^(60:ℕ)
      / ((121099/120000)^(60:ℕ) - 1))⌋ = 10868 := by
    norm_num
  rw [hfl]
  rw [if_neg (by norm_num), if_pos (by norm_num)]
  norm_num

/-- Witness for C3 at the spec's reference point 500000 / 10.99% / 60
months. -/
theorem compute_emi_characterization_witness :
    (0 : ℤ) < 500000 ∧ (0 : ℤ) < 60 ∧
    (((1099 : ℚ)/100 ≤ 0 →
        computeEmi 500000 (1099/100) 60 = ⌈(500000 : ℚ) / (60 : ℚ)⌉) ∧
      (0 < (1099 : ℚ)/100 →
        computeEmi 500000 (1099/100) 60 = pyRound (emiSpecFormula 500000 (1099/100) 60))) :=
  ⟨by decide, by decide,
   compute_emi_characterization.1 500000 (1099/100) 60 (by decide) (by decide)⟩

/-- C6: `_extract_tenure_months` returns n×12 when the year pattern matches
(with leftmost-match semantics), n when only the month pattern matches, and
otherwise interprets the message as a bare month count exactly when the whole
message with whitespace removed is purely digits; in particular "5 lakh"
yields no tenure even though `_extract_amount` reads it as 500000. -/
theorem extract_tenure_characterization :
    (∀ (t : List Char) (n : ℕ), searchYear (lowerStrip t) = some n →
      extract_tenure_months t = some ((n : ℤ) * 12)) ∧
    (∀ (t : List Char) (n : ℕ), searchYear (lowerStrip t) = none →
      searchMonth (lowerStrip t) = some n →
      extract_tenure_months t = some ((n : ℕ) : ℤ)) ∧
    (∀ t : List Char, searchYear (lowerStrip t) = none →
      searchMonth (lowerStrip t) = none →
      extract_tenure_months t =
        (if !((lowerStrip t).filter fun c => !isWs c).isEmpty &&
            ((lowerStrip t).filter fun c => !isWs c).all isDigitCh
         then some ((digitsToNat ((lowerStrip t).filter fun c => !isWs c) : ℕ) : ℤ)
         else none)) ∧
    extract_tenure_months "5 lakh".toList = none ∧
    extract_amount "5 lakh".toList = some 500000 ∧
    extract_tenure_months "2 years".toList = some 24 ∧
    extract_tenure_months "18 months".toList = some 18 ∧
    extract_tenure_months " 2 4 ".toList = some 24 := by
  refine ⟨?_, ?_, ?_, by decide, by decide, by decide, by decide, by decide⟩
  · intro t n h
    cases t with
    | nil => simp [lowerStrip, stripList, searchYear] at h
    | cons c cs =>
      simp only [extract_tenure_months, List.isEmpty_cons, Bool.false_eq_true, if_false]
      rw [h]
  · intro t n hy hm
    cases t with
    | nil => simp [lowerStrip, stripList, searchMonth, searchMonthAux] at hm
    | cons c cs =>
      simp only [extract_tenure_months, List.isEmpty_cons, Bool.false_eq_true, if_false]
      rw [hy, hm]
  · intro t hy hm
    cases t with
    | nil => decide
    | cons c cs =>
      simp only [extract_tenure_months, List.isEmpty_cons, Bool.false_eq_true, if_false]
      rw [hy, hm]

/-- Witness for C6: "2 years" carries a year phrase with n = 2 and extracts
as 24 months. -/
theorem extract_tenure_characterization_witness :
    searchYear (lowerStrip "2 years".toList) = some 2 ∧
    extract_tenure_months "2 years".toList = some (((2 : ℕ) : ℤ) * 12) :=
  ⟨by decide, extract_tenure_characterization.1 "2 years".toList 2 (by decide)⟩

/-- C7: in every state, a reset keyword is handled before the state's own
logic and ends the turn in `AWAITING_PHONE` with the customer record and all
loan and pending fields cleared. -/
theorem reset_preempts_all_states (env : Env) (s : Session) (msg : String)
    (h : ((stripList msg.toList).map Char.toLower) ∈ resetKeywordsSpec) :
    (processMessage env s msg).1.state = "AWAITING_PHONE" ∧
    (processMessage env s msg).1.customer_details = none ∧
    (processMessage env s msg).1.loan_details = emptyLoan ∧
    (processMessage env s msg).1.pending = emptyPending ∧
    (processMessage env s msg).2.reset = true := by
  have hc : ((stripList msg.toList).map Char.toLower) ∈ resetKeywordsCode := by
    simp only [resetKeywordsSpec, List.map, List.mem_cons, List.not_mem_nil, or_false] at h
    rcases h with h | h | h | h <;> rw [h] <;> decide
  have hc2 : List.map Char.toLower (stripList msg.data) ∈ resetKeywordsCode := hc
  simp [processMessage, hc2, reset_session]

/-- Witness for C7: "restart" from the confirmation state. -/
theorem reset_preempts_all_states_witness :
    (processMessage envW sessConfirmW "restart").1.state = "AWAITING_PHONE" ∧
    (processMessage envW sessConfirmW "restart").1.customer_details = none ∧
    (processMessage envW sessConfirmW "restart").1.loan_details = emptyLoan ∧
    (processMessage envW sessConfirmW "restart").1.pending = emptyPending ∧
    (processMessage envW sessConfirmW "restart").2.reset = true :=
  reset_preempts_all_states envW sessConfirmW "restart" (by decide)

/-- C8 counterexample: in a session whose state value is the unknown
"CORRUPTED_STATE", processing "hello" leaves the unknown state in place
instead of forcing `AWAITING_PHONE`. -/
theorem unknown_state_counterexample :
    sessCorruptW.state = "CORRUPTED_STATE" ∧
    "CORRUPTED_STATE" ∉ knownStates ∧
    (processMessage envW sessCorruptW "hello").1.state = "CORRUPTED_STATE" ∧
    "CORRUPTED_STATE" ≠ "AWAITING_PHONE" := by decide

/-- C8 amended: a message processed in an unknown state (that is not a
global reset/help command) leaves the session completely unchanged and
returns an empty message — the machine does not force `AWAITING_PHONE`. -/
theorem unknown_state_behavior (env : Env) (s : Session) (msg : String)
    (hstate : s.state ∉ knownStates)
    (hreset : resetKeywordsCode.contains ((stripList msg.toList).map Char.toLower) = false)
    (hhelp : helpKeywords.contains ((stripList msg.toList).map Char.toLower) = false) :
    (processMessage env s msg).1 = s ∧
    (processMessage env s msg).2.message = "" ∧
    (processMessage env s msg).2.ended = false := by
  simp only [knownStates, List.mem_cons, List.not_mem_nil, or_false, not_or] at hstate
  obtain ⟨h1, h2, h3, h4, h5, h6, h7, h8⟩ := hstate
  simp only [processMessage, hreset, hhelp, h1, h2, h3, h4, h5, h6, h7, h8,
    Bool.false_eq_true, if_false]
  refine ⟨?_, ?_, ?_⟩ <;> trivial

/-- Witness for C8's amended statement at the concrete corrupted session. -/
theorem unknown_state_behavior_witness :
    (processMessage envW sessCorruptW "hello").1 = sessCorruptW ∧
    (processMessage envW sessCorruptW "hello").2.message = "" ∧
    (processMessage envW sessCorruptW "hello").2.ended = false :=
  unknown_state_behavior envW sessCorruptW "hello" (by decide) (by decide) (by decide)

/-- C4 counterexample: in AwaitingConfirmation the unclear message "maybe"
(neither affirmative nor negative, no replacement amount or tenure) leaves
the session in AWAITING_CONFIRMATION; the claimed transition to
AWAITING_LOAN_AMOUNT does not happen. -/
theorem confirmation_unclear_counterexample :
    sessConfirmW.state = "AWAITING_CONFIRMATION" ∧
    is_yes (stripList "maybe".toList) = false ∧
    is_no (stripList "maybe".toList) = false ∧
    extract_amount (stripList "maybe".toList) = none ∧
    extract_tenure_months (stripList "maybe".toList) = none ∧
    (processMessage envW sessConfirmW "maybe").1.state = "AWAITING_CONFIRMATION" ∧
    (processMessage envW sessConfirmW "maybe").1.state ≠ "AWAITING_LOAN_AMOUNT" := by
  decide

/-- C4 amended: in AwaitingConfirmation a negative message (the `_is_no`
test) moves the session to AWAITING_LOAN_AMOUNT so the user can restate, but
an unclear message — neither affirmative nor negative, without "change" or
"different", and carrying no replacement amount or tenure — leaves the
session unchanged in AWAITING_CONFIRMATION and merely re-asks. -/
theorem confirmation_negative_or_unclear (env : Env) (s : Session) (msg : String)
    (hstate : s.state = "AWAITING_CONFIRMATION")
    (hreset : resetKeywordsCode.contains ((stripList msg.toList).map Char.toLower) = false)
    (hhelp : helpKeywords.contains ((stripList msg.toList).map Char.toLower) = false)
    (hy1 : is_yes (stripList msg.toList) = false)
    (hy2 : subStr "proceed" ((stripList msg.toList).map Char.toLower) = false)
    (hy3 : subStr "confirm" ((stripList msg.toList).map Char.toLower) = false) :
    (is_no (stripList msg.toList) = true →
      (processMessage env s msg).1.state = "AWAITING_LOAN_AMOUNT") ∧
    (is_no (stripList msg.toList) = false →
      subStr "change" ((stripList msg.toList).map Char.toLower) = false →
      subStr "different" ((stripList msg.toList).map Char.toLower) = false →
      extract_amount (stripList msg.toList) = none →
      extract_tenure_months (stripList msg.toList) = none →
      (processMessage env s msg).1 = s) := by
  constructor
  · intro hno
    simp only [processMessage, hstate, hreset, hhelp, String.reduceEq, Bool.false_eq_true,
      if_false, if_true, confirmationStep, hy1, hy2, hy3, hno, false_or, or_false,
      or_self, true_or]
  · intro hno hc1 hc2 ham htn
    simp only [processMessage, hstate, hreset, hhelp, String.reduceEq, Bool.false_eq_true,
      if_false, if_true, confirmationStep, hy1, hy2, hy3, hno, hc1, hc2, ham, htn,
      false_or, or_false, or_self]

/-- Witness for C4's amended statement: the negative "nah" sends the
confirmation state back to AWAITING_LOAN_AMOUNT. -/
theorem confirmation_negative_or_unclear_witness :
    (processMessage envW sessConfirmW "nah").1.state = "AWAITING_LOAN_AMOUNT" :=
  (confirmation_negative_or_unclear envW sessConfirmW "nah" rfl (by decide) (by decide)
    (by decide) (by decide) (by decide)).1 (by decide)

/-- C9: in AwaitingSuggestionConfirm the `_is_yes` test runs before the
`_is_no` test and accepts any text containing "yes"; every affirmative
message — including one that also satisfies the negative test — takes the
acceptance branch and sets `final_amount` to the suggested (pending)
pre-approved amount, never to the originally requested amount. -/
theorem suggestion_yes_precedence (env : Env) (s : Session) (msg : String) (c : Customer)
    (hstate : s.state = "AWAITING_SUGGESTION_CONFIRM")
    (hcust : s.customer_details = some c)
    (hyes : is_yes (stripList msg.toList) = true)
    (hreset : resetKeywordsCode.contains ((stripList msg.toList).map Char.toLower) = false)
    (hhelp : helpKeywords.contains ((stripList msg.toList).map Char.toLower) = false) :
    (processMessage env s msg).1.loan_details.final_amount
      = some (s.pending.suggested_amount.getD 0) ∧
    (s.pending.suggested_amount.getD 0 ≠ s.pending.requested_amount.getD 0 →
      (processMessage env s msg).1.loan_details.final_amount
        ≠ some (s.pending.requested_amount.getD 0)) := by
  have key : (processMessage env s msg).1.loan_details.final_amount
      = some (s.pending.suggested_amount.getD 0) := by
    simp only [processMessage, hstate, hreset, hhelp, String.reduceEq, Bool.false_eq_true,
      if_false, if_true, suggestionConfirmStep, hcust, hyes, underwritingStep]
    split_ifs <;> rfl
  refine ⟨key, fun hne hcontra => hne ?_⟩
  rw [key] at hcontra
  exact Option.some.inj hcontra

/-- Witness for C9: "no yes please" satisfies both the affirmative and the
negative test, yet `final_amount` becomes the suggested 500000, not the
requested 800000. -/
theorem suggestion_yes_precedence_witness :
    is_yes (stripList "no yes please".toList) = true ∧
    is_no (stripList "no yes please".toList) = true ∧
    (processMessage envW sessSuggestW "no yes please").1.loan_details.final_amount
      = some (sessSuggestW.pending.suggested_amount.getD 0) ∧
    (processMessage envW sessSuggestW "no yes please").1.loan_details.final_amount
      ≠ some (sessSuggestW.pending.requested_amount.getD 0) := by
  have h := suggestion_yes_precedence envW sessSuggestW "no yes please" custRajesh rfl rfl
    (by decide) (by decide) (by decide)
  exact ⟨by decide, by decide, h.1, h.2 (by decide)⟩

/-! ## C5: session expiry -/

/-- Keys absent from an association list are not found. -/
theorem lookup_eq_none_of_not_mem {β : Type} (k : String) :
    ∀ l : List (String × β), k ∉ l.map Prod.fst → l.lookup k = none := by
  intro l
  induction l with
  | nil => intro _; rfl
  | cons e rest ih =>
    intro h
    simp only [List.map_cons, List.mem_cons, not_or] at h
    obtain ⟨h1, h2⟩ := h
    cases e with
    | mk k2 v2 =>
      simp only [List.lookup]
      rw [show (k == k2) = false by simpa using h1]
      exact ih h2

/-- An expired entry is removed by `_cleanup_expired`, and (keys being
unique in a dict) no entry with its key survives. -/
theorem cleanup_removes_expired (ttl now : ℤ) (sid : String) :
    ∀ (l : List (String × SessionContext)) (ctx : SessionContext),
      (l.map Prod.fst).Nodup → l.lookup sid = some ctx → ttl < now - ctx.last_seen →
      (cleanup_expired ttl now l).lookup sid = none := by
  intro l
  induction l with
  | nil => intro ctx _ h _; simp [List.lookup] at h
  | cons e rest ih =>
    intro ctx hnd hlk hexp
    cases e with
    | mk k2 v2 =>
      simp only [List.map_cons, List.nodup_cons] at hnd
      obtain ⟨hk2, hndr⟩ := hnd
      by_cases hk : sid = k2
      · subst hk
        have hv : v2 = ctx := by
          simp only [List.lookup, beq_self_eq_true] at hlk
          exact Option.some.inj hlk
        subst hv
        simp only [cleanup_expired, List.filter]
        rw [show (!decide (ttl < now - ((sid, v2).2.last_seen))) = false by simp [hexp]]
        apply lookup_eq_none_of_not_mem
        intro hmem
        rcases List.mem_map.mp hmem with ⟨x, hx, hfst⟩
        exact hk2 (List.mem_map.mpr ⟨x, (List.mem_filter.mp hx).1, hfst⟩)
      · have hlk2 : rest.lookup sid = some ctx := by
          simpa [List.lookup, show (sid == k2) = false by simpa using hk] using hlk
        have hrest := ih ctx hndr hlk2 hexp
        simp only [cleanup_expired, List.filter] at hrest ⊢
        cases hpred : (!decide (ttl < now - ((k2, v2).2.last_seen))) with
        | false => exact hrest
        | true =>
          simp only [List.lookup]
          rw [show (sid == k2) = false by simpa using hk]
          exact hrest

/-- Appending a binding for a key that is absent makes it the lookup
result. -/
theorem lookup_append_of_none {β : Type} (k : String) (v : β) :
    ∀ l : List (String × β), l.lookup k = none → (l ++ [(k, v)]).lookup k = some v := by
  intro l
  induction l with
  | nil => intro _; simp [List.lookup]
  | cons e rest ih =>
    intro h
    cases e with
    | mk k2 v2 =>
      by_cases hk : k = k2
      · subst hk
        simp only [List.lookup, beq_self_eq_true] at h
        exact Option.noConfusion h
      · have h2 : rest.lookup k = none := by
          simpa [List.lookup, show (k == k2) = false by simpa using hk] using h
        simp only [List.cons_append, List.lookup]
        rw [show (k == k2) = false by simpa using hk]
        exact ih h2

/-- C5 counterexample: the api_server session store performs no expiry at
all — a session idle for 4000 s (past the default TTL of 3600 s) is returned
with its old state and customer record intact, not as a brand-new
AWAITING_PHONE session. -/
theorem session_ttl_counterexample :
    defaultTTL < 4000 - 0 ∧
    (getOrCreateSession [("s1", { id := "s1", sess := sessConfirmW, last_seen := 0 })]
        (some "s1") 4000 "fresh1").1.sess.state = "AWAITING_CONFIRMATION" ∧
    (getOrCreateSession [("s1", { id := "s1", sess := sessConfirmW, last_seen := 0 })]
        (some "s1") 4000 "fresh1").1.sess.customer_details = some custRajesh ∧
    "AWAITING_CONFIRMATION" ≠ "AWAITING_PHONE" := by decide

/-- C5 amended: the `CentralContextAgent` store drops a session idle
strictly longer than its TTL (default 3600 s): the next `get` of that id
returns a brand-new context in `AWAITING_PHONE` with the customer and loan
fields lost, and the store afterwards maps the id to that fresh context —
the old state is unreachable.  The api_server dialogue store, by contrast,
never expires sessions (see the counterexample). -/
theorem cca_session_expiry (ttl now : ℤ) (store : List (String × SessionContext))
    (sid : String) (ctx : SessionContext)
    (hnodup : (store.map Prod.fst).Nodup)
    (hlook : store.lookup sid = some ctx)
    (hexp : ttl < now - ctx.last_seen) :
    (ccaGet ttl store sid now).1 = freshContext sid now ∧
    (ccaGet ttl store sid now).1.state = "AWAITING_PHONE" ∧
    (ccaGet ttl store sid now).1.customer = none ∧
    (ccaGet ttl store sid now).1.loan = [] ∧
    (ccaGet ttl store sid now).2.lookup sid = some (freshContext sid now) := by
  have hnone := cleanup_removes_expired ttl now sid store ctx hnodup hlook hexp
  have h2 := lookup_append_of_none sid (freshContext sid now) _ hnone
  simp only [ccaGet, hnone]
  refine ⟨?_, ?_, ?_, ?_, ?_⟩ <;> trivial

/-- Witness for C5's amended statement at a concrete stale store. -/
theorem cca_session_expiry_witness :
    (ccaGet defaultTTL [("s1", staleCtxW)] "s1" 4000).1 = freshContext "s1" 4000 ∧
    (ccaGet defaultTTL [("s1", staleCtxW)] "s1" 4000).1.state = "AWAITING_PHONE" ∧
    (ccaGet defaultTTL [("s1", staleCtxW)] "s1" 4000).1.customer = none ∧
    (ccaGet defaultTTL [("s1", staleCtxW)] "s1" 4000).1.loan = [] ∧
    (ccaGet defaultTTL [("s1", staleCtxW)] "s1" 4000).2.lookup "s1"
      = some (freshContext "s1" 4000) :=
  cca_session_expiry defaultTTL 4000 [("s1", staleCtxW)] "s1" staleCtxW
    (by decide) (by decide) (by decide)

end Finmate
